import Mathlib

/-!
# Verification of the GSFLOW arcpy parameter scripts

Shallow embedding of the algorithmic content of `scripts/dem_parameters.py`
and `scripts/fishnet_generator.py`.  Python floats are modelled as exact
rationals; the per-cell attribute table is modelled as a list of records,
and the selection-plus-CalculateField pattern of arcpy is modelled as a
`List.map` of the corresponding per-record update.  Fallible Python code
(unhandled exceptions, `sys.exit`) is modelled with `Except` / error codes.
-/

/-- Outcomes by which `dem_parameters` can abort: an unhandled `NameError`
(an unbound name), an unhandled `ZeroDivisionError`, an unhandled
`ValueError` (e.g. `math.log10` of a non-positive number), or a logged
error followed by `sys.exit` (the script's way of reporting invalid
input). -/
inductive PyError where
  | nameError
  | zeroDivisionError
  | valueError
  | sysExit
deriving DecidableEq

/-! ## Elevation in feet (dem_parameters.py lines 278-288 and 391-402) -/

/-- One record of the cell table, restricted to the fields touched by the
elevation-in-feet step: `DEM_ADJ` and `DEM_FEET`. -/
structure ElevCell where
  dem_adj : ℚ
  dem_feet : ℚ
deriving DecidableEq

/-- The conversion constant `3.28084` of line 398. -/
def feetPerMeter : ℚ := 328084 / 100000

/-- The validated linear units, line 281:
`linear_unit_list = ['METER', 'FOOT_US', 'FOOT']`. -/
def linear_unit_list : List String := ["METER", "FOOT_US", "FOOT"]

/-- Lines 394-402: `if linear_unit in ['METERS']:` multiply `DEM_ADJ` by
3.28084 into `DEM_FEET`; `elif linear_unit in ['FOOT_US', 'FOOT']:` copy
`DEM_ADJ` into `DEM_FEET`; otherwise no field is written. -/
def demFeetStep (linearUnit : String) (cells : List ElevCell) : List ElevCell :=
  if linearUnit ∈ ["METERS"] then
    cells.map fun c => { c with dem_feet := c.dem_adj * feetPerMeter }
  else if linearUnit ∈ ["FOOT_US", "FOOT"] then
    cells.map fun c => { c with dem_feet := c.dem_adj }
  else cells

/-! ## Slope clamp and aspect sentinel (dem_parameters.py lines 323-340) -/

/-- Line 328: `Con(dem_slope_obj <= 0.01, 0, dem_slope_obj)` applied to one
raster cell. -/
def slopeCon (s : ℚ) : ℚ := if s ≤ 1 / 100 then 0 else s

/-- Lines 337-338: `Con(Raster(dem_slope_path) > 0.01, dem_aspect_obj, -1)`
applied to one raster cell; the first argument is the already clamped
slope raster read back from `dem_slope_path`. -/
def aspectCon (clampedSlope a : ℚ) : ℚ := if clampedSlope > 1 / 100 then a else -1

/-! ## Flow-accumulation weighted elevation ratio (lines 405-428) -/

/-- One record of the cell table, restricted to the fields touched by the
flow-accumulation weighted elevation step: `DEM_SUM`, `DEM_COUNT`,
`DEM_FLOW_ACC`. -/
structure FlowCell where
  dem_sum : ℚ
  dem_count : ℚ
  dem_flowacc : ℚ
deriving DecidableEq

/-- Lines 411-418: select `"DEM_COUNT" > 0` and calculate
`float(DEM_SUM) / DEM_COUNT` into `DEM_FLOW_ACC`, per record. -/
def flowAccRatioCell (c : FlowCell) : FlowCell :=
  if 0 < c.dem_count then { c with dem_flowacc := c.dem_sum / c.dem_count } else c

/-- Lines 420-425: select `("DEM_COUNT" = 0) OR ("DEM_SUM" = 0)` and
calculate `0` into `DEM_FLOW_ACC`, per record. -/
def flowAccZeroCell (c : FlowCell) : FlowCell :=
  if c.dem_count = 0 ∨ c.dem_sum = 0 then { c with dem_flowacc := 0 } else c

/-- The whole step, lines 405-428: the ratio pass over the table followed by
the zero-masking pass. -/
def flowAccStep (cells : List FlowCell) : List FlowCell :=
  (cells.map flowAccRatioCell).map flowAccZeroCell

/-! ## DEM_ADJ fill (lines 430-447) -/

/-- One record of the cell table, restricted to the fields read or written
by the `DEM_ADJ` fill step: `DEM_ADJ` and the configured
`dem_adj_copy_field` source value. -/
structure AdjCell where
  dem_adj : ℚ
  copy_src : ℚ
deriving DecidableEq

/-- Lines 430-447: if every record's `DEM_ADJ` is 0, copy
`float(dem_adj_copy_field)` into `DEM_ADJ`; `elif reset_dem_adj_flag:` do
the same copy; else leave the table untouched. -/
def demAdjFillStep (reset : Bool) (cells : List AdjCell) : List AdjCell :=
  if ∀ c ∈ cells, c.dem_adj = 0 then
    cells.map fun c => { c with dem_adj := c.copy_src }
  else if reset then
    cells.map fun c => { c with dem_adj := c.copy_src }
  else cells

/-! ## Lake / ocean masking (lines 509-551) -/

/-- One record of the cell table, restricted to the fields read or written
by the lake/ocean masking step. -/
structure MaskCell where
  hru_type : ℤ
  dem_adj : ℚ
  dem_aspect : ℚ
  dem_slope_deg : ℚ
  dem_slope_rad : ℚ
  dem_slope_pct : ℚ
  jh_coef : ℚ
  jh_tmax : ℚ
  jh_tmin : ℚ
deriving DecidableEq

/-- Lines 516-527: select `"HRU_TYPE" = 2 OR ("HRU_TYPE" = 0 AND
"DEM_ADJ" = 0)` and calculate 0 into the aspect and the three slope
fields, per record. -/
def lakeMaskCell (c : MaskCell) : MaskCell :=
  if c.hru_type = 2 ∨ (c.hru_type = 0 ∧ c.dem_adj = 0) then
    { c with dem_aspect := 0, dem_slope_deg := 0, dem_slope_rad := 0, dem_slope_pct := 0 }
  else c

/-- Lines 539-548: select `"HRU_TYPE" = 0 AND "DEM_ADJ" = 0` (a fresh
selection on the full table) and calculate 0 into `JH_COEF`, `JH_TMAX`,
`JH_TMIN`, per record. -/
def oceanJhMaskCell (c : MaskCell) : MaskCell :=
  if c.hru_type = 0 ∧ c.dem_adj = 0 then
    { c with jh_coef := 0, jh_tmax := 0, jh_tmin := 0 }
  else c

/-- The whole masking step, lines 509-551: the slope/aspect pass over the
table followed by the Jensen-Haise pass. -/
def lakeOceanMaskStep (cells : List MaskCell) : List MaskCell :=
  (cells.map lakeMaskCell).map oceanJhMaskCell

/-! ## Automatic flow_acc_dem_factor (dem_parameters.py lines 10-21, 72-100) -/

/-- The names bound at module level by the import statements of
`dem_parameters.py`, lines 10-20: `import argparse`, `import ConfigParser`,
`import datetime as dt`, `import logging`, `import os`, `import sys`,
`import arcpy`, `from arcpy import env`, `import support_functions as
support`.  The name `math` is not among them. -/
def demParametersBoundNames : List String :=
  ["argparse", "ConfigParser", "dt", "logging", "os", "sys", "arcpy", "env", "support"]

/-- Python's `int(math.log10 q)` for a positive rational `q`: `int` truncates
toward zero, so it is the floor of `log10 q` when `q ≥ 1` and the ceiling
when `q < 1` (the float `log10` is modelled as exact). -/
def pyIntLog10 (q : ℚ) : ℤ := if 1 ≤ q then Int.log 10 q else Int.clog 10 q

/-- Lines 83-90: the worst case value of `flow_acc_dem`, built as
`int(GetCount(point_path))`, times `(float(hru.cs) / dem_cs) ** 2`,
times the assumed worst-cell elevation `100`. -/
def worstCaseProduct (cellCount : ℤ) (hruCs demCs : ℚ) : ℚ :=
  ((cellCount : ℚ) * (hruCs / demCs) ^ 2) * 100

/-- Lines 83-96, the arithmetic of the automatic factor (as it would evaluate
once the name `math` resolves): divide the worst case product by
`0.5 * 2**32`, clamp with `min(0.1, ...)`, then take
`1.0 / 10 ** (int(math.log10(factor)) + 1)`. -/
def autoFlowAccDemFactorFormula (cellCount : ℤ) (hruCs demCs : ℚ) : ℚ :=
  let raw := worstCaseProduct cellCount hruCs demCs / ((1 / 2) * 2 ^ 32)
  let clamped := min (1 / 10) raw
  1 / (10 : ℚ) ^ (pyIntLog10 clamped + 1)

/-- The automatic-factor computation, lines 83-96, with Python's dynamic
semantics: line 86 raises `ZeroDivisionError` when `dem_cs` is 0; otherwise
line 96 looks up the name `math`, which is not bound in the module
(`demParametersBoundNames`), raising `NameError`; were it bound,
`math.log10` of a non-positive clamped value would raise `ValueError`, and
otherwise the factor of `autoFlowAccDemFactorFormula` would be returned. -/
def autoFactorStep (cellCount : ℤ) (hruCs demCs : ℚ) : Except PyError ℚ :=
  if demCs = 0 then Except.error PyError.zeroDivisionError
  else if "math" ∈ demParametersBoundNames then
    if min (1 / 10) (worstCaseProduct cellCount hruCs demCs / ((1 / 2) * 2 ^ 32)) ≤ 0 then
      Except.error PyError.valueError
    else Except.ok (autoFlowAccDemFactorFormula cellCount hruCs demCs)
  else Except.error PyError.nameError

/-- What a run of `dem_parameters` has durably touched: the raster files
written under `dem_rasters` and the cell-table fields written (by zonal
statistics or `CalculateField`). -/
structure DemTrace where
  rasters : List String
  fields : List String
deriving DecidableEq

/-- The rasters processed (lines 250-360) and cell-table fields written
(lines 379-548) by a run of `dem_parameters` that passes its input checks,
in source order; the flow rasters and `DEM_SUM` / `DEM_COUNT` /
`DEM_FLOW_ACC` fields only when `calc_flow_acc_dem_flag` is set. -/
def demParametersFullTrace (calcFlowAccDemFlag : Bool) : DemTrace :=
  { rasters :=
      ["dem.img", "dem_fill.img"] ++
        (if calcFlowAccDemFlag then
          ["flow_dir.img", "flow_acc.img", "flow_acc_filter.img", "flow_acc_x_dem.img"]
        else []) ++
        ["dem_integer.img", "dem_slope.img", "dem_aspect.img", "aspect_reclass.img",
         "temp_adj.img"]
    fields :=
      ["dem_mean", "dem_max", "dem_min", "dem_aspect", "dem_slope_deg", "tmax_adj",
       "tmin_adj"] ++
        (if calcFlowAccDemFlag then ["dem_sum", "dem_count", "dem_flowacc"] else []) ++
        ["dem_feet", "dem_adj", "dem_slope_rad", "dem_slope_pct", "jh_tmax", "jh_tmin",
         "jh_coef", "snarea_thresh"] }

/-- The control flow of `dem_parameters` around the factor computation:
lines 59-74 read the configuration (no raster or table writes); lines
75-100 run the automatic factor computation when `calc_flow_acc_dem_flag`
is set and `flow_acc_dem_factor` is absent or not parsable as a float
(`factorSetting = none`); only afterwards come the input-existence checks
(lines 119-162), the `dem_cs <= 0` check (lines 164-167) and the
projection-method check (lines 168-172), each exiting via `sys.exit`, and
then the raster processing and field writes. -/
def demParametersRun (calcFlowAccDemFlag : Bool) (factorSetting : Option ℚ)
    (cellCount : ℤ) (hruCs demCs : ℚ) (inputsExist projMethodValid : Bool) :
    DemTrace × Option PyError :=
  let factorResult : Except PyError (Option ℚ) :=
    if calcFlowAccDemFlag then
      match factorSetting with
      | some f => Except.ok (some f)
      | none => (autoFactorStep cellCount hruCs demCs).map some
    else Except.ok none
  match factorResult with
  | Except.error e => (⟨[], []⟩, some e)
  | Except.ok _ =>
    if inputsExist = false then (⟨[], []⟩, some PyError.sysExit)
    else if demCs ≤ 0 then (⟨[], []⟩, some PyError.sysExit)
    else if projMethodValid = false then (⟨[], []⟩, some PyError.sysExit)
    else (demParametersFullTrace calcFlowAccDemFlag, none)

/-! ## Jensen-Haise PRISM temperatures (dem_parameters.py lines 468-498) -/

/-- Python's `max` over a list given as first element plus rest: keep the
current value unless a later element is strictly greater. -/
def pyMaxQ (a : ℚ) (l : List ℚ) : ℚ :=
  l.foldl (fun acc x => if acc < x then x else acc) a

/-- One comparison step of Python's `max` over a list of pairs: tuples
compare lexicographically, so the accumulator is replaced when the new
pair is strictly greater in that order. -/
def pyMaxPairStep (acc x : ℚ × ℚ) : ℚ × ℚ :=
  if acc.1 < x.1 ∨ (acc.1 = x.1 ∧ acc.2 < x.2) then x else acc

/-- Python's `max` over a list of pairs given as first element plus rest. -/
def pyMaxPairs (a : ℚ × ℚ) (l : List (ℚ × ℚ)) : ℚ × ℚ :=
  l.foldl pyMaxPairStep a

/-- Lines 479-483: `max([TMAX_01, ..., TMAX_12])`, the monthly maxima given
in month order as a function on `Fin 12`. -/
def jhTmax (tmax : Fin 12 → ℚ) : ℚ :=
  pyMaxQ (tmax 0) (List.ofFn fun i : Fin 11 => tmax i.succ)

/-- Lines 485-488: `max(zip([TMAX_01, ...], [TMIN_01, ...]))[1]`, the second
component of the lexicographic maximum of the zipped monthly pairs. -/
def jhTmin (tmax tmin : Fin 12 → ℚ) : ℚ :=
  (pyMaxPairs (tmax 0, tmin 0) (List.ofFn fun i : Fin 11 => (tmax i.succ, tmin i.succ))).2

/-- Synthetic monthly maxima with months 1 and 2 sharing the maximum 30. -/
def exTmax : Fin 12 → ℚ := fun i => if i.val = 0 ∨ i.val = 1 then 30 else 0

/-- Synthetic monthly minima: 5 in month 1, 10 in month 2, 0 elsewhere. -/
def exTmin : Fin 12 → ℚ := fun i => if i.val = 0 then 5 else if i.val = 1 then 10 else 0

/-! ## Fishnet extent snapping (fishnet_generator.py lines 136-152) -/

/-- An axis-aligned extent. -/
structure Extent where
  xmin : ℚ
  ymin : ℚ
  xmax : ℚ
  ymax : ℚ
deriving DecidableEq

/-- Modelled from the spec: `support_functions.buffer_extent_func`, called at
fishnet_generator.py line 137, is not under src/scripts.  Spec 4.1 step 1:
expand the study extent outward on all four sides by the buffer
distance. -/
def buffer_extent_func (e : Extent) (d : ℚ) : Extent :=
  ⟨e.xmin - d, e.ymin - d, e.xmax + d, e.ymax + d⟩

/-- Modelled from the spec: `support_functions.adjust_extent_to_snap`, called
at fishnet_generator.py line 144, is not under src/scripts.  Spec 4.1 step
2: adjust each edge of the buffered extent to the lattice of spacing `cs`
anchored at the reference point, rounding outward — `xmin`/`ymin` down,
`xmax`/`ymax` up. -/
def adjust_extent_to_snap (e : Extent) (refx refy cs : ℚ) : Extent :=
  ⟨refx + cs * ⌊(e.xmin - refx) / cs⌋, refy + cs * ⌊(e.ymin - refy) / cs⌋,
   refx + cs * ⌈(e.xmax - refx) / cs⌉, refy + cs * ⌈(e.ymax - refy) / cs⌉⟩

/-- Lines 136-145 of `fishnet_func`: buffer the study-area extent by
`buffer_cells * cs` and snap the result to the reference point. -/
def fishnetExtent (study : Extent) (refx refy cs : ℚ) (bufferCells : ℕ) : Extent :=
  adjust_extent_to_snap (buffer_extent_func study ((bufferCells : ℚ) * cs)) refx refy cs

/-!
## Theorems
-/

/-- C1: the claim expects `dem_feet = dem_adj * 3.28084` whenever the
projected DEM's linear unit is meters.  The validated unit name for meters
is `METER` (line 281), but line 394 compares against `['METERS']`, so for
a DEM in meters the elevation-in-feet step writes nothing at all: on a
cell with `dem_adj = 10` and `dem_feet = 0`, `dem_feet` stays `0` instead
of becoming `10 * 3.28084 ≠ 0`. -/
theorem dem_feet_meter_branch_dead :
    "METER" ∈ linear_unit_list
    ∧ (∀ cells, demFeetStep "METER" cells = cells)
    ∧ demFeetStep "METER" [⟨10, 0⟩] = [⟨10, 0⟩]
    ∧ (⟨10, 0⟩ : ElevCell).dem_adj * feetPerMeter ≠ (⟨10, 0⟩ : ElevCell).dem_feet := by
  have hstep : ∀ cells, demFeetStep "METER" cells = cells := by
    intro cells
    simp only [demFeetStep]
    rw [if_neg (by decide), if_neg (by decide)]
  exact ⟨by decide, hstep, hstep _, by norm_num [feetPerMeter]⟩

/-- C5: after the flow-accumulation-weighted elevation step every cell with
`dem_count = 0` or `dem_sum = 0` has `dem_flowacc = 0`, and every cell
with `dem_count > 0` and `dem_sum ≠ 0` has
`dem_flowacc = dem_sum / dem_count`. -/
theorem flow_acc_ratio_mask_spec (cells : List FlowCell) (c : FlowCell) :
    flowAccStep cells = cells.map (fun x => flowAccZeroCell (flowAccRatioCell x))
    ∧ (c.dem_count = 0 ∨ c.dem_sum = 0 →
        (flowAccZeroCell (flowAccRatioCell c)).dem_flowacc = 0)
    ∧ (0 < c.dem_count → c.dem_sum ≠ 0 →
        (flowAccZeroCell (flowAccRatioCell c)).dem_flowacc = c.dem_sum / c.dem_count) := by
  refine ⟨by simp [flowAccStep, List.map_map, Function.comp], ?_, ?_⟩
  · rintro (h | h)
    · simp [flowAccRatioCell, flowAccZeroCell, h]
    · by_cases hc : 0 < c.dem_count <;>
        simp [flowAccRatioCell, flowAccZeroCell, hc, h]
  · intro hc hs
    simp [flowAccRatioCell, flowAccZeroCell, hc, hc.ne', hs]

/-- Witness for C5 at concrete cells: `(sum, count, old) = (5, 0, 99)` is
masked to 0 and `(6, 3, 99)` gets the ratio `6 / 3`. -/
theorem flow_acc_ratio_mask_witness :
    (flowAccZeroCell (flowAccRatioCell ⟨5, 0, 99⟩)).dem_flowacc = 0
    ∧ (flowAccZeroCell (flowAccRatioCell ⟨6, 3, 99⟩)).dem_flowacc = (6 : ℚ) / 3 :=
  ⟨(flow_acc_ratio_mask_spec [] ⟨5, 0, 99⟩).2.1 (Or.inl rfl),
   (flow_acc_ratio_mask_spec [] ⟨6, 3, 99⟩).2.2 (by norm_num) (by norm_num)⟩

/-- C6: the slope `Con` maps every slope in `(0, 0.01]` to exactly 0 and
leaves slopes above 0.01 unchanged, and the aspect `Con` forces aspect to
`-1` on every cell whose clamped slope is at most 0.01. -/
theorem slope_aspect_clamp_spec (s a : ℚ) :
    (0 < s → s ≤ 1 / 100 → slopeCon s = 0)
    ∧ (1 / 100 < s → slopeCon s = s)
    ∧ (slopeCon s ≤ 1 / 100 → aspectCon (slopeCon s) a = -1) := by
  refine ⟨fun _ h2 => ?_, fun h => ?_, fun h => ?_⟩
  · show (if s ≤ 1 / 100 then (0 : ℚ) else s) = 0
    exact if_pos h2
  · show (if s ≤ 1 / 100 then (0 : ℚ) else s) = s
    exact if_neg (not_le.mpr h)
  · show (if slopeCon s > 1 / 100 then a else (-1 : ℚ)) = -1
    exact if_neg (not_lt.mpr h)

/-- Witness for C6: slope `1/200 ∈ (0, 0.01]` clamps to 0 and its aspect is
forced to `-1`; slope `5 > 0.01` is unchanged. -/
theorem slope_aspect_clamp_witness :
    slopeCon (1 / 200) = 0 ∧ slopeCon 5 = 5
    ∧ aspectCon (slopeCon (1 / 200)) 77 = -1 := by
  have h0 : slopeCon (1 / 200) = 0 :=
    (slope_aspect_clamp_spec (1 / 200) 77).1 (by norm_num) (by norm_num)
  refine ⟨h0, (slope_aspect_clamp_spec 5 77).2.1 (by norm_num),
    (slope_aspect_clamp_spec (1 / 200) 77).2.2 ?_⟩
  rw [h0]
  norm_num

/-- C7: the `DEM_ADJ` fill copies the alternate source field exactly when
every cell's `dem_adj` is 0 or the reset flag is set, and re-running it
without the reset flag after a run leaves the table unchanged. -/
theorem dem_adj_fill_spec (reset : Bool) (cells : List AdjCell) :
    demAdjFillStep reset cells =
      (if (∀ c ∈ cells, c.dem_adj = 0) ∨ reset = true then
        cells.map fun c => { c with dem_adj := c.copy_src }
      else cells)
    ∧ demAdjFillStep false (demAdjFillStep false cells) = demAdjFillStep false cells := by
  constructor
  · by_cases hall : ∀ c ∈ cells, c.dem_adj = 0
    · rw [if_pos (Or.inl hall)]
      unfold demAdjFillStep
      rw [if_pos hall]
    · by_cases hr : reset = true
      · rw [if_pos (Or.inr hr)]
        unfold demAdjFillStep
        rw [if_neg hall, if_pos hr]
      · rw [if_neg (by rintro (h | h); exacts [hall h, hr h])]
        unfold demAdjFillStep
        rw [if_neg hall, if_neg hr]
  · by_cases hall : ∀ c ∈ cells, c.dem_adj = 0
    · have h1 : demAdjFillStep false cells =
          cells.map fun c => { c with dem_adj := c.copy_src } := by
        unfold demAdjFillStep
        rw [if_pos hall]
      rw [h1]
      by_cases hall2 : ∀ c ∈ cells.map (fun c => { c with dem_adj := c.copy_src }),
          c.dem_adj = (0 : ℚ)
      · unfold demAdjFillStep
        rw [if_pos hall2, List.map_map]
        rfl
      · unfold demAdjFillStep
        rw [if_neg hall2, if_neg (by decide)]
    · have h1 : demAdjFillStep false cells = cells := by
        unfold demAdjFillStep
        rw [if_neg hall, if_neg (by decide)]
      rw [h1, h1]

/-- C8: after the masking step, a cell that is a lake (`hru_type = 2`) or an
ocean cell with `dem_adj = 0` has aspect and the three slope fields zeroed
(and only such cells do); exactly the ocean cells with `dem_adj = 0`
additionally have the three Jensen-Haise fields zeroed; all other fields
of every cell are unchanged. -/
theorem lake_ocean_mask_spec (cells : List MaskCell) (c : MaskCell) :
    lakeOceanMaskStep cells = cells.map (fun x => oceanJhMaskCell (lakeMaskCell x))
    ∧ (oceanJhMaskCell (lakeMaskCell c)).dem_aspect =
        (if c.hru_type = 2 ∨ (c.hru_type = 0 ∧ c.dem_adj = 0) then 0 else c.dem_aspect)
    ∧ (oceanJhMaskCell (lakeMaskCell c)).dem_slope_deg =
        (if c.hru_type = 2 ∨ (c.hru_type = 0 ∧ c.dem_adj = 0) then 0 else c.dem_slope_deg)
    ∧ (oceanJhMaskCell (lakeMaskCell c)).dem_slope_rad =
        (if c.hru_type = 2 ∨ (c.hru_type = 0 ∧ c.dem_adj = 0) then 0 else c.dem_slope_rad)
    ∧ (oceanJhMaskCell (lakeMaskCell c)).dem_slope_pct =
        (if c.hru_type = 2 ∨ (c.hru_type = 0 ∧ c.dem_adj = 0) then 0 else c.dem_slope_pct)
    ∧ (oceanJhMaskCell (lakeMaskCell c)).jh_coef =
        (if c.hru_type = 0 ∧ c.dem_adj = 0 then 0 else c.jh_coef)
    ∧ (oceanJhMaskCell (lakeMaskCell c)).jh_tmax =
        (if c.hru_type = 0 ∧ c.dem_adj = 0 then 0 else c.jh_tmax)
    ∧ (oceanJhMaskCell (lakeMaskCell c)).jh_tmin =
        (if c.hru_type = 0 ∧ c.dem_adj = 0 then 0 else c.jh_tmin)
    ∧ (oceanJhMaskCell (lakeMaskCell c)).hru_type = c.hru_type
    ∧ (oceanJhMaskCell (lakeMaskCell c)).dem_adj = c.dem_adj := by
  refine ⟨by simp [lakeOceanMaskStep, List.map_map, Function.comp], ?_⟩
  by_cases hB : c.hru_type = 0 ∧ c.dem_adj = 0
  · obtain ⟨h0, hadj⟩ := hB
    simp [lakeMaskCell, oceanJhMaskCell, h0, hadj]
  · by_cases hA : c.hru_type = 2 ∨ (c.hru_type = 0 ∧ c.dem_adj = 0)
    · have h2 : c.hru_type = 2 := hA.resolve_right hB
      simp [lakeMaskCell, oceanJhMaskCell, h2, hB]
    · have h2 : ¬(c.hru_type = 2) := fun h => hA (Or.inl h)
      simp [lakeMaskCell, oceanJhMaskCell, h2, hB, hA]

/-- The (non-strict) lexicographic order on pairs under which
`pyMaxPairStep` picks the larger element: this is the order Python uses to
compare tuples. -/
def lexLe (p q : ℚ × ℚ) : Prop := p.1 < q.1 ∨ (p.1 = q.1 ∧ p.2 ≤ q.2)

lemma lexLe_refl (p : ℚ × ℚ) : lexLe p p := Or.inr ⟨rfl, le_refl _⟩

lemma lexLe_trans {p q r : ℚ × ℚ} (h1 : lexLe p q) (h2 : lexLe q r) : lexLe p r := by
  rcases h1 with h1 | ⟨h1, h1'⟩ <;> rcases h2 with h2 | ⟨h2, h2'⟩
  · exact Or.inl (lt_trans h1 h2)
  · exact Or.inl (h2 ▸ h1)
  · exact Or.inl (h1 ▸ h2)
  · exact Or.inr ⟨h1.trans h2, le_trans h1' h2'⟩

lemma le_pyMaxPairStep_left (a x : ℚ × ℚ) : lexLe a (pyMaxPairStep a x) := by
  unfold pyMaxPairStep
  by_cases h : a.1 < x.1 ∨ (a.1 = x.1 ∧ a.2 < x.2)
  · rw [if_pos h]
    rcases h with h | ⟨h, h'⟩
    · exact Or.inl h
    · exact Or.inr ⟨h, le_of_lt h'⟩
  · rw [if_neg h]
    exact lexLe_refl a

lemma le_pyMaxPairStep_right (a x : ℚ × ℚ) : lexLe x (pyMaxPairStep a x) := by
  unfold pyMaxPairStep
  by_cases h : a.1 < x.1 ∨ (a.1 = x.1 ∧ a.2 < x.2)
  · rw [if_pos h]
    exact lexLe_refl x
  · rw [if_neg h]
    push_neg at h
    rcases lt_or_eq_of_le h.1 with hlt | heq
    · exact Or.inl hlt
    · exact Or.inr ⟨heq, h.2 heq.symm⟩

lemma pyMaxPairStep_eq_or (a x : ℚ × ℚ) :
    pyMaxPairStep a x = a ∨ pyMaxPairStep a x = x := by
  unfold pyMaxPairStep
  by_cases h : a.1 < x.1 ∨ (a.1 = x.1 ∧ a.2 < x.2)
  · exact Or.inr (if_pos h)
  · exact Or.inl (if_neg h)

/-- Python's `max` over a nonempty list of pairs returns an element of the
list (or the seed) that is a lexicographic upper bound of the seed and of
every list element. -/
lemma pyMaxPairs_spec (l : List (ℚ × ℚ)) : ∀ a : ℚ × ℚ,
    (pyMaxPairs a l = a ∨ pyMaxPairs a l ∈ l)
    ∧ lexLe a (pyMaxPairs a l) ∧ ∀ p ∈ l, lexLe p (pyMaxPairs a l) := by
  induction l with
  | nil => exact fun a => ⟨Or.inl rfl, lexLe_refl a, by simp⟩
  | cons x xs ih =>
    intro a
    have h := ih (pyMaxPairStep a x)
    have hstep : pyMaxPairs a (x :: xs) = pyMaxPairs (pyMaxPairStep a x) xs := rfl
    rw [hstep]
    refine ⟨?_, ?_, ?_⟩
    · rcases h.1 with he | hm
      · rcases pyMaxPairStep_eq_or a x with h1 | h1
        · exact Or.inl (he.trans h1)
        · exact Or.inr (by rw [he, h1]; exact List.mem_cons_self x xs)
      · exact Or.inr (List.mem_cons_of_mem x hm)
    · exact lexLe_trans (le_pyMaxPairStep_left a x) h.2.1
    · intro p hp
      rcases List.mem_cons.mp hp with rfl | hp
      · exact lexLe_trans (le_pyMaxPairStep_right a p) h.2.1
      · exact h.2.2 p hp

/-- The first component of Python's pair `max` is the scalar `max` of the
first components. -/
lemma pyMaxPairs_fst (l : List (ℚ × ℚ)) : ∀ a : ℚ × ℚ,
    (pyMaxPairs a l).1 = pyMaxQ a.1 (l.map Prod.fst) := by
  induction l with
  | nil => exact fun a => rfl
  | cons x xs ih =>
    intro a
    have hstep : (pyMaxPairStep a x).1 = if a.1 < x.1 then x.1 else a.1 := by
      unfold pyMaxPairStep
      by_cases h1 : a.1 < x.1
      · rw [if_pos (Or.inl h1), if_pos h1]
      · by_cases h2 : a.1 = x.1 ∧ a.2 < x.2
        · rw [if_pos (Or.inr h2), if_neg h1, h2.1]
        · rw [if_neg (by tauto), if_neg h1]
    show (pyMaxPairs (pyMaxPairStep a x) xs).1 = pyMaxQ a.1 ((x :: xs).map Prod.fst)
    rw [ih (pyMaxPairStep a x), hstep]
    rfl

set_option maxRecDepth 4000 in
/-- C2 counterexample: with months 1 and 2 both attaining the maximum
TMAX = 30, TMIN_01 = 5 and TMIN_02 = 10, the computed `jh_tmin` is 10 —
the larger TMIN among the tied months — not the earlier month's 5, so the
claimed earliest-month tie-break is false. -/
theorem jh_tiebreak_counterexample :
    exTmax 0 = 30 ∧ exTmax 1 = 30 ∧ (∀ j, exTmax j ≤ 30)
    ∧ exTmin 0 = 5 ∧ jhTmax exTmax = 30
    ∧ jhTmin exTmax exTmin = 10 ∧ jhTmin exTmax exTmin ≠ exTmin 0 := by
  refine ⟨by decide, by decide, by decide, by decide, by decide, by decide, by decide⟩

set_option maxRecDepth 4000 in
/-- C2 (amended): when PRISM temperatures are used, `jh_tmax` is the maximum
of the twelve monthly TMAX values, and `jh_tmin` is the TMIN of a month
attaining that maximum; when several months tie, `jh_tmin` is the largest
TMIN among the tied months (Python's `max` over zipped pairs compares
lexicographically), not the earliest month's TMIN. -/
theorem jh_prism_tmax_tmin_spec (tmax tmin : Fin 12 → ℚ) :
    (∀ j, tmax j ≤ jhTmax tmax)
    ∧ (∃ i, tmax i = jhTmax tmax ∧ tmin i = jhTmin tmax tmin)
    ∧ (∀ j, tmax j = jhTmax tmax → tmin j ≤ jhTmin tmax tmin) := by
  have h := pyMaxPairs_spec
    (List.ofFn fun i : Fin 11 => (tmax i.succ, tmin i.succ)) (tmax 0, tmin 0)
  set r := pyMaxPairs (tmax 0, tmin 0)
    (List.ofFn fun i : Fin 11 => (tmax i.succ, tmin i.succ)) with hr
  have hfst : r.1 = jhTmax tmax := by
    rw [hr, pyMaxPairs_fst, List.map_ofFn]
    rfl
  have hsnd : r.2 = jhTmin tmax tmin := rfl
  have hub : ∀ j : Fin 12, lexLe (tmax j, tmin j) r := by
    intro j
    refine Fin.cases ?_ ?_ j
    · exact h.2.1
    · intro i
      refine h.2.2 _ ?_
      rw [List.mem_ofFn]
      exact ⟨i, rfl⟩
  have hmem : ∃ i : Fin 12, r = (tmax i, tmin i) := by
    rcases h.1 with he | hm
    · exact ⟨0, he⟩
    · rw [List.mem_ofFn] at hm
      obtain ⟨i, hi⟩ := hm
      exact ⟨i.succ, hi.symm⟩
  refine ⟨?_, ?_, ?_⟩
  · intro j
    rcases hub j with hlt | ⟨heq, _⟩
    · exact le_of_lt (hfst ▸ hlt)
    · exact le_of_eq (hfst ▸ heq)
  · obtain ⟨i, hi⟩ := hmem
    exact ⟨i, by rw [← hfst, hi], by rw [← hsnd, hi]⟩
  · intro j hj
    rcases hub j with hlt | ⟨_, hle⟩
    · rw [hfst, hj] at hlt
      exact absurd hlt (lt_irrefl _)
    · exact hsnd ▸ hle

set_option maxRecDepth 4000 in
/-- Witness for C2 at the synthetic monthly values, with the tie-break
conjunct discharged at month 2. -/
theorem jh_prism_tmax_tmin_witness :
    ((∀ j, exTmax j ≤ jhTmax exTmax)
      ∧ (∃ i, exTmax i = jhTmax exTmax ∧ exTmin i = jhTmin exTmax exTmin)
      ∧ (∀ j, exTmax j = jhTmax exTmax → exTmin j ≤ jhTmin exTmax exTmin))
    ∧ exTmin 1 ≤ jhTmin exTmax exTmin :=
  ⟨jh_prism_tmax_tmin_spec exTmax exTmin,
   (jh_prism_tmax_tmin_spec exTmax exTmin).2.2 1 (by decide)⟩

lemma math_unbound : "math" ∉ demParametersBoundNames := by decide

lemma pyIntLog10_tenth : pyIntLog10 (1 / 10) = -1 := by
  unfold pyIntLog10
  rw [if_neg (by norm_num), one_div]
  have h10 : ((10 : ℕ) : ℚ) = (10 : ℚ) := by norm_cast
  rw [← h10, Int.clog_inv, Int.log_natCast]
  have hlog : Nat.log 10 10 = 1 := Nat.log_eq_one_iff'.mpr ⟨by norm_num, by norm_num⟩
  rw [hlog]
  norm_num

/-- C3: at `cellCount = 2^31` point features and equal HRU and DEM cell
sizes, the automatic factor of lines 83-96 evaluates to 1 — because
`min(0.1, ratio)` caps the large ratio at 0.1 (instead of raising small
ratios to 0.1 as the comment intends) and `1/10**(int(log10(0.1))+1)` is
`10^0 = 1`.  The factor is therefore neither `≤ 0.1` nor a negative power
of ten, and the worst-case product times the factor is `100 · 2^31`, far
beyond `0.5 · 2^32`. -/
theorem auto_factor_bounds_fail :
    autoFlowAccDemFactorFormula (2 ^ 31) 100 100 = 1
    ∧ ¬(autoFlowAccDemFactorFormula (2 ^ 31) 100 100 ≤ 1 / 10)
    ∧ ¬(∃ k : ℕ, 1 ≤ k ∧ autoFlowAccDemFactorFormula (2 ^ 31) 100 100 = 1 / 10 ^ k)
    ∧ ¬(worstCaseProduct (2 ^ 31) 100 100 * autoFlowAccDemFactorFormula (2 ^ 31) 100 100
        < (1 / 2) * 2 ^ 32) := by
  have hW : worstCaseProduct (2 ^ 31) 100 100 = 214748364800 := by
    unfold worstCaseProduct
    push_cast
    norm_num
  have hval : autoFlowAccDemFactorFormula (2 ^ 31) 100 100 = 1 := by
    show (1 : ℚ) / (10 : ℚ) ^
      (pyIntLog10 (min (1 / 10) (worstCaseProduct (2 ^ 31) 100 100 / ((1 / 2) * 2 ^ 32))) + 1) = 1
    rw [hW]
    have hdiv : (214748364800 : ℚ) / ((1 / 2) * 2 ^ 32) = 100 := by norm_num
    rw [hdiv, min_eq_left (by norm_num), pyIntLog10_tenth]
    norm_num
  refine ⟨hval, by rw [hval]; norm_num, ?_, by rw [hval, hW]; norm_num⟩
  rintro ⟨k, hk, hkeq⟩
  rw [hval] at hkeq
  have hkpow : (10 : ℚ) ^ k = 1 := by
    field_simp at hkeq
    linarith
  have hmono : (10 : ℚ) ^ 1 ≤ 10 ^ k := pow_le_pow_right₀ (by norm_num) hk
  rw [hkpow] at hmono
  norm_num at hmono

/-- C4 (amended): for every configuration with `calc_flow_acc_dem_flag` set
and `flow_acc_dem_factor` absent or not parsable as a float,
`dem_parameters` stops inside the automatic-factor computation before any
raster is processed or any cell-table field is written — with
`dem_cellsize = 0` the cell-size ratio of line 86 raises an unhandled
`ZeroDivisionError`; with any other cellsize, line 96 raises an unhandled
`NameError` because the name `math` is never bound by the module's
imports. -/
theorem dem_parameters_missing_factor_aborts (cellCount : ℤ) (hruCs demCs : ℚ)
    (inputsExist projMethodValid : Bool) :
    demParametersRun true none cellCount hruCs demCs inputsExist projMethodValid =
      (⟨[], []⟩, some (if demCs = 0 then PyError.zeroDivisionError else PyError.nameError)) := by
  unfold demParametersRun autoFactorStep
  by_cases hd : demCs = 0
  · rw [if_pos hd, if_pos hd]
    rfl
  · rw [if_neg hd, if_neg math_unbound, if_neg hd]
    rfl

/-- C4 counterexample: a configuration with `dem_cellsize = 0` (and the flag
set, the factor absent) makes the automatic-factor computation raise
`ZeroDivisionError` at line 86, not the `NameError` the claim asserts for
every configuration. -/
theorem dem_parameters_zero_cellsize_counterexample :
    demParametersRun true none 100 300 0 true true =
      (⟨[], []⟩, some PyError.zeroDivisionError)
    ∧ PyError.zeroDivisionError ≠ PyError.nameError := by
  constructor
  · unfold demParametersRun autoFactorStep
    rw [if_pos rfl]
    rfl
  · decide

/-- C10 (amended): whenever the fishnet cell count is `≤ 0` or a cell size
is `≤ 0`, the automatic factor derivation fails to return a factor, but
not by reporting an invalid-input error: it raises an unhandled
`ZeroDivisionError` when the DEM cellsize is 0 and an unhandled
`NameError` otherwise; the script's own `dem_cellsize <= 0` check (lines
164-167) runs only after this computation. -/
theorem auto_factor_invalid_input_behavior (cellCount : ℤ) (hruCs demCs : ℚ)
    (h : cellCount ≤ 0 ∨ hruCs ≤ 0 ∨ demCs ≤ 0) :
    autoFactorStep cellCount hruCs demCs =
      Except.error (if demCs = 0 then PyError.zeroDivisionError else PyError.nameError)
    ∧ (∀ q : ℚ, autoFactorStep cellCount hruCs demCs ≠ Except.ok q)
    ∧ (if demCs = 0 then PyError.zeroDivisionError else PyError.nameError)
        ≠ PyError.sysExit := by
  have hmain : autoFactorStep cellCount hruCs demCs =
      Except.error (if demCs = 0 then PyError.zeroDivisionError else PyError.nameError) := by
    unfold autoFactorStep
    by_cases hd : demCs = 0
    · rw [if_pos hd, if_pos hd]
    · rw [if_neg hd, if_neg math_unbound, if_neg hd]
      
  refine ⟨hmain, fun q hq => ?_, ?_⟩
  · rw [hmain] at hq
    exact Except.noConfusion hq
  · by_cases hd : demCs = 0 <;> simp [hd]

/-- Witness for C10 at cell count `-5` and cell sizes 300. -/
theorem auto_factor_invalid_input_witness :
    (autoFactorStep (-5) 300 300 =
      Except.error
        (if (300 : ℚ) = 0 then PyError.zeroDivisionError else PyError.nameError))
    ∧ (∀ q : ℚ, autoFactorStep (-5) 300 300 ≠ Except.ok q)
    ∧ (if (300 : ℚ) = 0 then PyError.zeroDivisionError else PyError.nameError)
        ≠ PyError.sysExit :=
  auto_factor_invalid_input_behavior (-5) 300 300 (Or.inl (by norm_num))

/-- C10 counterexample: at cell count 0 with valid cell sizes the derivation
ends in `NameError`, not in the logged-error-and-exit way the script
reports invalid input. -/
theorem auto_factor_zero_count_not_reported :
    autoFactorStep 0 300 300 = Except.error PyError.nameError
    ∧ PyError.nameError ≠ PyError.sysExit := by
  constructor
  · unfold autoFactorStep
    rw [if_neg (by norm_num), if_neg math_unbound]
  · decide

/-- C9: for a valid study extent, any reference point, positive cell size
and buffer cell count, the snapped fishnet extent contains the buffered
extent, and its lower-left corner is lattice-aligned to the reference
point: `xmin - ref_x` and `ymin - ref_y` are exact integer multiples of
the cell size. -/
theorem fishnet_extent_snap_aligned (study : Extent) (refx refy cs : ℚ)
    (bufferCells : ℕ) (hx : study.xmin < study.xmax) (hy : study.ymin < study.ymax)
    (hcs : 0 < cs) :
    (fishnetExtent study refx refy cs bufferCells).xmin
        ≤ (buffer_extent_func study ((bufferCells : ℚ) * cs)).xmin
    ∧ (fishnetExtent study refx refy cs bufferCells).ymin
        ≤ (buffer_extent_func study ((bufferCells : ℚ) * cs)).ymin
    ∧ (buffer_extent_func study ((bufferCells : ℚ) * cs)).xmax
        ≤ (fishnetExtent study refx refy cs bufferCells).xmax
    ∧ (buffer_extent_func study ((bufferCells : ℚ) * cs)).ymax
        ≤ (fishnetExtent study refx refy cs bufferCells).ymax
    ∧ (∃ i : ℤ, (fishnetExtent study refx refy cs bufferCells).xmin - refx = i * cs)
    ∧ (∃ j : ℤ, (fishnetExtent study refx refy cs bufferCells).ymin - refy = j * cs) := by
  have hne : cs ≠ 0 := ne_of_gt hcs
  have key_floor : ∀ t : ℚ, cs * ⌊t / cs⌋ ≤ t := by
    intro t
    have h1 : (⌊t / cs⌋ : ℚ) ≤ t / cs := Int.floor_le _
    have h2 : cs * (⌊t / cs⌋ : ℚ) ≤ cs * (t / cs) := mul_le_mul_of_nonneg_left h1 hcs.le
    rwa [mul_div_cancel₀ t hne] at h2
  have key_ceil : ∀ t : ℚ, t ≤ cs * ⌈t / cs⌉ := by
    intro t
    have h1 : t / cs ≤ (⌈t / cs⌉ : ℚ) := Int.le_ceil _
    have h2 : cs * (t / cs) ≤ cs * (⌈t / cs⌉ : ℚ) := mul_le_mul_of_nonneg_left h1 hcs.le
    rwa [mul_div_cancel₀ t hne] at h2
  refine ⟨?_, ?_, ?_, ?_, ?_, ?_⟩
  · show refx + cs * ⌊((study.xmin - (bufferCells : ℚ) * cs) - refx) / cs⌋
        ≤ study.xmin - (bufferCells : ℚ) * cs
    have := key_floor ((study.xmin - (bufferCells : ℚ) * cs) - refx)
    linarith
  · show refy + cs * ⌊((study.ymin - (bufferCells : ℚ) * cs) - refy) / cs⌋
        ≤ study.ymin - (bufferCells : ℚ) * cs
    have := key_floor ((study.ymin - (bufferCells : ℚ) * cs) - refy)
    linarith
  · show study.xmax + (bufferCells : ℚ) * cs
        ≤ refx + cs * ⌈((study.xmax + (bufferCells : ℚ) * cs) - refx) / cs⌉
    have := key_ceil ((study.xmax + (bufferCells : ℚ) * cs) - refx)
    linarith
  · show study.ymax + (bufferCells : ℚ) * cs
        ≤ refy + cs * ⌈((study.ymax + (bufferCells : ℚ) * cs) - refy) / cs⌉
    have := key_ceil ((study.ymax + (bufferCells : ℚ) * cs) - refy)
    linarith
  · exact ⟨⌊((study.xmin - (bufferCells : ℚ) * cs) - refx) / cs⌋, by
      show (refx + cs * ⌊((study.xmin - (bufferCells : ℚ) * cs) - refx) / cs⌋) - refx = _
      ring⟩
  · exact ⟨⌊((study.ymin - (bufferCells : ℚ) * cs) - refy) / cs⌋, by
      show (refy + cs * ⌊((study.ymin - (bufferCells : ℚ) * cs) - refy) / cs⌋) - refy = _
      ring⟩

/-- Witness for C9: study extent (12, 7) to (95, 47), reference point
(5, 5), cell size 10, two buffer cells. -/
theorem fishnet_extent_snap_witness :
    (fishnetExtent ⟨12, 7, 95, 47⟩ 5 5 10 2).xmin
        ≤ (buffer_extent_func ⟨12, 7, 95, 47⟩ (((2 : ℕ) : ℚ) * 10)).xmin
    ∧ (fishnetExtent ⟨12, 7, 95, 47⟩ 5 5 10 2).ymin
        ≤ (buffer_extent_func ⟨12, 7, 95, 47⟩ (((2 : ℕ) : ℚ) * 10)).ymin
    ∧ (buffer_extent_func ⟨12, 7, 95, 47⟩ (((2 : ℕ) : ℚ) * 10)).xmax
        ≤ (fishnetExtent ⟨12, 7, 95, 47⟩ 5 5 10 2).xmax
    ∧ (buffer_extent_func ⟨12, 7, 95, 47⟩ (((2 : ℕ) : ℚ) * 10)).ymax
        ≤ (fishnetExtent ⟨12, 7, 95, 47⟩ 5 5 10 2).ymax
    ∧ (∃ i : ℤ, (fishnetExtent ⟨12, 7, 95, 47⟩ 5 5 10 2).xmin - 5 = i * 10)
    ∧ (∃ j : ℤ, (fishnetExtent ⟨12, 7, 95, 47⟩ 5 5 10 2).ymin - 5 = j * 10) :=
  fishnet_extent_snap_aligned ⟨12, 7, 95, 47⟩ 5 5 10 2 (by norm_num) (by norm_num)
    (by norm_num)
